import Mathlib

/-!
Verification of the PharmaGuide backend core (src/backend/main.py): a shallow
embedding of the variant-file parser, phenotype inference, rule-table lookup,
LLM-explanation wrapper and per-drug assessment assembly, followed by theorems
settling the specification claims.

Python strings are modelled as Lean `String`; the string operations the code
uses (`strip`, `split`, `startswith`, `replace`, `upper`, `splitlines`) are
given structurally recursive models over `String.data` so that every
definition evaluates inside the kernel.  Python `set`s are modelled as
duplicate-free lists (membership is all the code observes); Python `dict`s as
association lists or as match-functions.  Python floats appear only as the
three literal confidence constants and are modelled as rationals.
-/

namespace PharmaGuide

/-! ## String primitives (models of the Python string operations used) -/

/-- Whitespace characters removed by Python `str.strip()` (ASCII subset;
the code only ever strips ASCII genomic text). -/
def isPySpace (c : Char) : Bool :=
  c = ' ' || c = '\t' || c = '\n' || c = '\r' || c = '\x0b' || c = '\x0c'

/-- Model of Python `str.strip()`. -/
def pyStrip (s : String) : String :=
  String.mk (((s.data.dropWhile isPySpace).reverse.dropWhile isPySpace).reverse)

/-- Split a character list on a single separator character; model of
Python `str.split(sep)` for a one-character separator. -/
def splitChAux (sep : Char) : List Char → List Char → List (List Char)
  | [], acc => [acc.reverse]
  | c :: cs, acc =>
    if c = sep then acc.reverse :: splitChAux sep cs []
    else splitChAux sep cs (c :: acc)

/-- Model of Python `s.split(sep)` for a one-character separator `sep`. -/
def pySplitCh (s : String) (sep : Char) : List String :=
  (splitChAux sep s.data []).map String.mk

/-- Does `pre` occur at the head of `cs`?  Model of Python `str.startswith`. -/
def listStarts : List Char → List Char → Bool
  | [], _ => true
  | _ :: _, [] => false
  | p :: ps, c :: cs => p = c && listStarts ps cs

/-- Model of Python `s.startswith(p)`. -/
def pyStarts (s p : String) : Bool :=
  listStarts p.data s.data

/-- Model of Python `p.replace("GENE=", "")`: every occurrence of the tag
`GENE=` is removed, scanning left to right. -/
def removeTagGENE : List Char → List Char
  | 'G' :: 'E' :: 'N' :: 'E' :: '=' :: rest => removeTagGENE rest
  | c :: rest => c :: removeTagGENE rest
  | [] => []

/-- Model of Python `p.replace("RS=", "")`. -/
def removeTagRS : List Char → List Char
  | 'R' :: 'S' :: '=' :: rest => removeTagRS rest
  | c :: rest => c :: removeTagRS rest
  | [] => []

/-- Model of Python `str.upper()` on the ASCII drug names the code handles. -/
def asciiUpperChar (c : Char) : Char :=
  if 'a' ≤ c && c ≤ 'z' then Char.ofNat (c.toNat - 32) else c

/-- Model of Python `s.upper()`. -/
def pyUpper (s : String) : String :=
  String.mk (s.data.map asciiUpperChar)

/-- Line-break characters recognised by Python `str.splitlines()`. -/
def isLineBreak (c : Char) : Bool :=
  c = '\n' || c = '\r' || c = '\x0b' || c = '\x0c' ||
  c = '\x1c' || c = '\x1d' || c = '\x1e' || c = '\x85' ||
  c.toNat = 8232 || c.toNat = 8233

/-- Model of Python `str.splitlines()`: `\r\n` counts as one break, a
trailing break adds no empty final line. -/
def splitLinesAux : List Char → List Char → List (List Char)
  | [], acc => if acc.isEmpty then [] else [acc.reverse]
  | '\r' :: '\n' :: rest, acc => acc.reverse :: splitLinesAux rest []
  | c :: rest, acc =>
    if isLineBreak c then acc.reverse :: splitLinesAux rest []
    else splitLinesAux rest (c :: acc)

def pySplitLines (s : String) : List String :=
  (splitLinesAux s.data []).map String.mk

/-- Model of Python `". ".join(l)`. -/
def joinDotSpace : List String → String
  | [] => ""
  | [s] => s
  | s :: rest => s ++ ". " ++ joinDotSpace rest

/-- Model of Python `s.split(". ")` (the two-character sentence separator
used by the explanation builder). -/
def splitDotSpaceAux : List Char → List Char → List (List Char)
  | [], acc => [acc.reverse]
  | '.' :: ' ' :: rest, acc => acc.reverse :: splitDotSpaceAux rest []
  | c :: rest, acc => splitDotSpaceAux rest (c :: acc)

def pySplitDotSpace (s : String) : List String :=
  (splitDotSpaceAux s.data []).map String.mk

/-- Model of Python `", ".join(l)`. -/
def joinCommaSpace : List String → String
  | [] => ""
  | [s] => s
  | s :: rest => s ++ ", " ++ joinCommaSpace rest

/-! ## Byte decoding

Model of `data.decode("utf-8", errors="ignore")`: a best-effort UTF-8
decoder that silently drops undecodable byte sequences instead of failing.
It is total on every byte list, which is the property the claims use. -/

/-- Is `b` a UTF-8 continuation byte (`0x80 ≤ b < 0xC0`)? -/
def isContByte (b : UInt8) : Bool :=
  128 ≤ b.toNat && b.toNat < 192

/-- Worker for `utf8DecodeIgnore`.  The fuel argument only bounds the
recursion depth (each step consumes at least one byte, so fuel equal to the
byte count is always enough); it never changes the decoded result. -/
def utf8DecodeGo : Nat → List UInt8 → List Char
  | 0, _ => []
  | _ + 1, [] => []
  | fuel + 1, b1 :: rest =>
    if b1.toNat < 128 then
      Char.ofNat b1.toNat :: utf8DecodeGo fuel rest
    else if b1.toNat < 194 then
      -- stray continuation byte or overlong two-byte lead: dropped
      utf8DecodeGo fuel rest
    else if b1.toNat < 224 then
      match rest with
      | b2 :: rest2 =>
        if isContByte b2 then
          Char.ofNat (((b1.toNat - 192) * 64) + (b2.toNat - 128)) :: utf8DecodeGo fuel rest2
        else utf8DecodeGo fuel (b2 :: rest2)
      | [] => []
    else if b1.toNat < 240 then
      match rest with
      | b2 :: b3 :: rest3 =>
        let cp := ((b1.toNat - 224) * 4096) + ((b2.toNat - 128) * 64) + (b3.toNat - 128)
        if isContByte b2 && isContByte b3 && decide (2048 ≤ cp) &&
            !(decide (55296 ≤ cp) && decide (cp < 57344)) then
          Char.ofNat cp :: utf8DecodeGo fuel rest3
        else utf8DecodeGo fuel (b2 :: b3 :: rest3)
      | _ => []
    else if b1.toNat < 245 then
      match rest with
      | b2 :: b3 :: b4 :: rest4 =>
        let cp := ((b1.toNat - 240) * 262144) + ((b2.toNat - 128) * 4096) +
          ((b3.toNat - 128) * 64) + (b4.toNat - 128)
        if isContByte b2 && isContByte b3 && isContByte b4 &&
            decide (65536 ≤ cp) && decide (cp < 1114112) then
          Char.ofNat cp :: utf8DecodeGo fuel rest4
        else utf8DecodeGo fuel (b2 :: b3 :: b4 :: rest4)
      | _ => []
    else
      -- invalid lead byte: dropped
      utf8DecodeGo fuel rest

def utf8DecodeIgnore (data : List UInt8) : List Char :=
  utf8DecodeGo data.length data

/-- ASCII encoding helper used to build concrete byte inputs in examples. -/
def asciiBytes (s : String) : List UInt8 :=
  s.data.map (fun c => UInt8.ofNat c.toNat)

/-! ## Knowledge base (src/backend/main.py lines 29-75) -/

def SUPPORTED_DRUGS : List String :=
  ["CODEINE", "WARFARIN", "CLOPIDOGREL", "SIMVASTATIN", "AZATHIOPRINE", "FLUOROURACIL"]

/-- Drug → primary pharmacogene (`DRUG_PRIMARY_GENE`); `none` models a
missing dictionary key. -/
def DRUG_PRIMARY_GENE : String → Option String
  | "CODEINE" => some "CYP2D6"
  | "CLOPIDOGREL" => some "CYP2C19"
  | "WARFARIN" => some "CYP2C9"
  | "SIMVASTATIN" => some "SLCO1B1"
  | "AZATHIOPRINE" => some "TPMT"
  | "FLUOROURACIL" => some "DPYD"
  | _ => none

/-- Qualitative functional effect of a variant (`"LOF"` / `"GOF"` strings in
the Python dictionaries). -/
inductive Effect where
  | LOF
  | GOF
deriving DecidableEq, BEq

/-- Inner dictionaries of `PGX_VARIANT_EFFECTS`, one per gene. -/
def effectsCYP2C19 : String → Option Effect
  | "rs4244285" => some .LOF
  | "rs4986893" => some .LOF
  | "rs12248560" => some .GOF
  | _ => none

def effectsCYP2C9 : String → Option Effect
  | "rs1799853" => some .LOF
  | "rs1057910" => some .LOF
  | _ => none

def effectsCYP2D6 : String → Option Effect
  | "rs3892097" => some .LOF
  | "rs5030655" => some .LOF
  | _ => none

def effectsSLCO1B1 : String → Option Effect
  | "rs4149056" => some .LOF
  | _ => none

def effectsTPMT : String → Option Effect
  | "rs1800460" => some .LOF
  | "rs1142345" => some .LOF
  | _ => none

def effectsDPYD : String → Option Effect
  | "rs3918290" => some .LOF
  | "rs55886062" => some .LOF
  | _ => none

/-- `PGX_VARIANT_EFFECTS`: gene → (rsID → effect); `none` models a gene
absent from the outer dictionary. -/
def PGX_VARIANT_EFFECTS : String → Option (String → Option Effect)
  | "CYP2C19" => some effectsCYP2C19
  | "CYP2C9" => some effectsCYP2C9
  | "CYP2D6" => some effectsCYP2D6
  | "SLCO1B1" => some effectsSLCO1B1
  | "TPMT" => some effectsTPMT
  | "DPYD" => some effectsDPYD
  | _ => none

/-- `PGX_VARIANT_EFFECTS.get(gene, {})`. -/
def effectsForGene (gene : String) : String → Option Effect :=
  (PGX_VARIANT_EFFECTS gene).getD (fun _ => none)

/-! ## Rule table (src/backend/main.py lines 78-300) -/

/-- The `dosing` sub-dictionary of a rule row. -/
structure Dosing where
  action : String
  initial_dose : Option String
  alternative_drugs : Option (List String)
  monitoring : List String
  cpic_guideline : String
  notes : String
deriving DecidableEq

/-- One row of `PGX_RULES`.  Every row in the source carries a `dosing`
dictionary; the field is optional because `build_drug_assessment` checks
`"dosing" in rule` before copying it. -/
structure Rule where
  risk_label : String
  severity : String
  recommendation : String
  dosing : Option Dosing
deriving DecidableEq

/-- `PGX_RULES`: (drug, gene, phenotype) → rule row; `none` models a key
absent from the dictionary. -/
def PGX_RULES : String × String × String → Option Rule
  | ("CODEINE", "CYP2D6", "PM") => some
    { risk_label := "Toxic", severity := "high",
      recommendation := "Avoid codeine; consider non‑CYP2D6 opioid per CPIC guidance.",
      dosing := some
        { action := "avoid", initial_dose := none,
          alternative_drugs := some ["Morphine", "Hydromorphone", "Oxycodone", "Hydrocodone", "Tramadol"],
          monitoring := ["Respiratory depression", "Sedation", "Opioid toxicity signs"],
          cpic_guideline := "CPIC Codeine-CYP2D6 (2014, updated 2021)",
          notes := "Poor metabolizers have reduced conversion to active morphine, leading to poor analgesia. Consider alternative opioids that do not require CYP2D6 activation." } }
  | ("CODEINE", "CYP2D6", "UM") => some
    { risk_label := "Toxic", severity := "high",
      recommendation := "Avoid codeine; risk of life‑threatening opioid toxicity.",
      dosing := some
        { action := "avoid", initial_dose := none,
          alternative_drugs := some ["Morphine", "Hydromorphone", "Oxycodone", "Hydrocodone"],
          monitoring := ["Respiratory depression", "Life-threatening toxicity", "Excessive sedation"],
          cpic_guideline := "CPIC Codeine-CYP2D6 (2014, updated 2021)",
          notes := "Ultra-rapid metabolizers convert codeine to morphine rapidly, increasing risk of life-threatening respiratory depression. Avoid codeine entirely." } }
  | ("CODEINE", "CYP2D6", "IM") => some
    { risk_label := "Ineffective", severity := "moderate",
      recommendation := "Consider alternative to codeine or higher monitoring for poor analgesia.",
      dosing := some
        { action := "consider_alternative",
          initial_dose := some "Standard dose, but monitor for efficacy",
          alternative_drugs := some ["Morphine", "Oxycodone", "Hydrocodone"],
          monitoring := ["Analgesic response", "Need for dose escalation", "Adverse effects"],
          cpic_guideline := "CPIC Codeine-CYP2D6 (2014, updated 2021)",
          notes := "Intermediate metabolizers may have reduced efficacy. Consider alternative opioids or monitor closely for inadequate pain control." } }
  | ("CODEINE", "CYP2D6", "NM") => some
    { risk_label := "Safe", severity := "none",
      recommendation := "Use standard dosing with routine clinical monitoring.",
      dosing := some
        { action := "standard_dose",
          initial_dose := some "Standard dosing as per product label",
          alternative_drugs := none,
          monitoring := ["Pain control", "Adverse effects", "Opioid tolerance"],
          cpic_guideline := "CPIC Codeine-CYP2D6 (2014, updated 2021)",
          notes := "Normal metabolizers have typical codeine-to-morphine conversion. Standard dosing is appropriate." } }
  | ("CLOPIDOGREL", "CYP2C19", "PM") => some
    { risk_label := "Ineffective", severity := "high",
      recommendation := "Avoid clopidogrel; use alternative P2Y12 inhibitor per CPIC guidance.",
      dosing := some
        { action := "avoid", initial_dose := none,
          alternative_drugs := some ["Prasugrel 10 mg daily", "Ticagrelor 90 mg twice daily"],
          monitoring := ["Platelet function", "Cardiovascular events", "Bleeding risk"],
          cpic_guideline := "CPIC Clopidogrel-CYP2C19 (2013, updated 2022)",
          notes := "Poor metabolizers have significantly reduced clopidogrel activation, leading to increased risk of cardiovascular events. Use alternative P2Y12 inhibitors." } }
  | ("CLOPIDOGREL", "CYP2C19", "IM") => some
    { risk_label := "Ineffective", severity := "moderate",
      recommendation := "Consider alternative antiplatelet agent or enhanced platelet monitoring per CPIC guidance.",
      dosing := some
        { action := "consider_alternative",
          initial_dose := some "Standard dose (75 mg daily), but consider alternatives",
          alternative_drugs := some ["Prasugrel 10 mg daily", "Ticagrelor 90 mg twice daily"],
          monitoring := ["Platelet function testing", "Cardiovascular events", "Bleeding risk"],
          cpic_guideline := "CPIC Clopidogrel-CYP2C19 (2013, updated 2022)",
          notes := "Intermediate metabolizers may have reduced clopidogrel efficacy. Consider alternative P2Y12 inhibitors or enhanced monitoring." } }
  | ("WARFARIN", "CYP2C9", "PM") => some
    { risk_label := "Toxic", severity := "high",
      recommendation := "Start at substantially reduced dose and titrate slowly with INR monitoring per CPIC guidance.",
      dosing := some
        { action := "reduce_dose",
          initial_dose := some "Reduce by 30-50% from standard starting dose (typically 2-3 mg daily instead of 5 mg)",
          alternative_drugs := some ["Direct oral anticoagulants (DOACs) - consider if appropriate"],
          monitoring := ["INR weekly until stable, then monthly", "Bleeding signs", "Thromboembolic events"],
          cpic_guideline := "CPIC Warfarin-CYP2C9/VKORC1 (2017, updated 2023)",
          notes := "Poor metabolizers have reduced warfarin clearance, requiring lower doses. Start at 30-50% of standard dose and titrate based on INR." } }
  | ("WARFARIN", "CYP2C9", "IM") => some
    { risk_label := "Adjust Dosage", severity := "moderate",
      recommendation := "Use lower initial warfarin dose and close INR monitoring per CPIC guidance.",
      dosing := some
        { action := "reduce_dose",
          initial_dose := some "Reduce by 20-30% from standard starting dose (typically 3-4 mg daily instead of 5 mg)",
          alternative_drugs := none,
          monitoring := ["INR every 1-2 weeks until stable", "Bleeding signs"],
          cpic_guideline := "CPIC Warfarin-CYP2C9/VKORC1 (2017, updated 2023)",
          notes := "Intermediate metabolizers may require lower warfarin doses. Start at reduced dose and monitor INR closely." } }
  | ("WARFARIN", "CYP2C9", "NM") => some
    { risk_label := "Safe", severity := "none",
      recommendation := "Use standard dosing with routine clinical monitoring.",
      dosing := some
        { action := "standard_dose",
          initial_dose := some "Standard starting dose (typically 5 mg daily) with INR-guided titration",
          alternative_drugs := none,
          monitoring := ["INR until stable", "Bleeding signs"],
          cpic_guideline := "CPIC Warfarin-CYP2C9/VKORC1 (2017, updated 2023)",
          notes := "Normal metabolizers have typical warfarin clearance. Standard dosing with INR monitoring is appropriate." } }
  | ("SIMVASTATIN", "SLCO1B1", "PM") => some
    { risk_label := "Toxic", severity := "high",
      recommendation := "Avoid high‑dose simvastatin; use lower dose or alternative statin per CPIC guidance.",
      dosing := some
        { action := "reduce_dose",
          initial_dose := some "Maximum 20 mg daily (avoid 40-80 mg doses)",
          alternative_drugs := some ["Pravastatin", "Rosuvastatin", "Atorvastatin"],
          monitoring := ["Creatine kinase (CK) levels", "Muscle symptoms", "Myopathy signs"],
          cpic_guideline := "CPIC Simvastatin-SLCO1B1 (2014, updated 2022)",
          notes := "Poor function variants increase simvastatin exposure and myopathy risk. Limit to 20 mg daily or use alternative statin." } }
  | ("SIMVASTATIN", "SLCO1B1", "IM") => some
    { risk_label := "Adjust Dosage", severity := "moderate",
      recommendation := "Use reduced simvastatin dose and monitor for myopathy per CPIC guidance.",
      dosing := some
        { action := "reduce_dose",
          initial_dose := some "Maximum 40 mg daily (avoid 80 mg dose)",
          alternative_drugs := some ["Pravastatin", "Rosuvastatin"],
          monitoring := ["Creatine kinase (CK) levels", "Muscle symptoms"],
          cpic_guideline := "CPIC Simvastatin-SLCO1B1 (2014, updated 2022)",
          notes := "Intermediate function variants may increase simvastatin exposure. Limit dose to 40 mg daily and monitor for myopathy." } }
  | ("SIMVASTATIN", "SLCO1B1", "NM") => some
    { risk_label := "Safe", severity := "none",
      recommendation := "Use standard dosing with routine clinical monitoring.",
      dosing := some
        { action := "standard_dose",
          initial_dose := some "Standard dosing as per product label (up to 80 mg daily if needed)",
          alternative_drugs := none,
          monitoring := ["LDL-C", "Creatine kinase (CK) if symptoms", "Muscle symptoms"],
          cpic_guideline := "CPIC Simvastatin-SLCO1B1 (2014, updated 2022)",
          notes := "Normal function variants. Standard simvastatin dosing is appropriate." } }
  | ("AZATHIOPRINE", "TPMT", "PM") => some
    { risk_label := "Toxic", severity := "critical",
      recommendation := "Avoid standard azathioprine doses; consider alternative or drastic dose reduction per CPIC guidance.",
      dosing := some
        { action := "avoid_or_severe_reduction",
          initial_dose := some "Reduce by 90% (typically 0.5-1 mg/kg/day instead of 2-3 mg/kg/day) OR avoid entirely",
          alternative_drugs := some ["6-mercaptopurine (with same precautions)", "Mycophenolate mofetil", "Methotrexate"],
          monitoring := ["Complete blood count (CBC) weekly for first month, then monthly", "Myelosuppression signs", "Infection risk"],
          cpic_guideline := "CPIC Azathioprine-TPMT (2011, updated 2018)",
          notes := "Poor metabolizers have severe deficiency leading to life-threatening myelosuppression. Reduce dose by 90% or avoid entirely. Consider alternatives." } }
  | ("AZATHIOPRINE", "TPMT", "IM") => some
    { risk_label := "Adjust Dosage", severity := "high",
      recommendation := "Reduce starting dose (30–80%) and monitor closely for myelosuppression per CPIC guidance.",
      dosing := some
        { action := "reduce_dose",
          initial_dose := some "Reduce by 30-50% (typically 1-1.5 mg/kg/day instead of 2-3 mg/kg/day)",
          alternative_drugs := some ["Mycophenolate mofetil", "Methotrexate"],
          monitoring := ["Complete blood count (CBC) every 1-2 weeks initially, then monthly", "Myelosuppression signs"],
          cpic_guideline := "CPIC Azathioprine-TPMT (2011, updated 2018)",
          notes := "Intermediate metabolizers have reduced TPMT activity. Reduce starting dose by 30-50% and monitor CBC closely for myelosuppression." } }
  | ("FLUOROURACIL", "DPYD", "PM") => some
    { risk_label := "Toxic", severity := "critical",
      recommendation := "Avoid standard fluorouracil dosing; consider alternative regimen per CPIC guidance.",
      dosing := some
        { action := "avoid", initial_dose := none,
          alternative_drugs := some ["Capecitabine (with same precautions)", "Alternative chemotherapy regimens"],
          monitoring := ["Complete blood count", "Gastrointestinal toxicity", "Neurological symptoms", "Severe toxicity signs"],
          cpic_guideline := "CPIC Fluoropyrimidines-DPYD (2013, updated 2020)",
          notes := "Poor metabolizers have severe DPD deficiency leading to life-threatening toxicity. Avoid fluorouracil and capecitabine. Use alternative chemotherapy." } }
  | ("FLUOROURACIL", "DPYD", "IM") => some
    { risk_label := "Adjust Dosage", severity := "high",
      recommendation := "Substantially reduce starting dose and monitor for severe toxicity per CPIC guidance.",
      dosing := some
        { action := "reduce_dose",
          initial_dose := some "Reduce by 50% from standard dose",
          alternative_drugs := some ["Alternative chemotherapy regimens"],
          monitoring := ["Complete blood count weekly", "Gastrointestinal toxicity", "Severe toxicity signs"],
          cpic_guideline := "CPIC Fluoropyrimidines-DPYD (2013, updated 2020)",
          notes := "Intermediate metabolizers have reduced DPD activity. Reduce starting dose by 50% and monitor closely for severe toxicity." } }
  | ("FLUOROURACIL", "DPYD", "NM") => some
    { risk_label := "Safe", severity := "none",
      recommendation := "Use standard dosing with routine clinical monitoring.",
      dosing := some
        { action := "standard_dose",
          initial_dose := some "Standard dose per chemotherapy regimen",
          alternative_drugs := none,
          monitoring := ["Complete blood count", "Gastrointestinal toxicity", "Routine toxicity monitoring"],
          cpic_guideline := "CPIC Fluoropyrimidines-DPYD (2013, updated 2020)",
          notes := "Normal metabolizers have typical DPD enzyme function. Standard fluorouracil dosing is appropriate." } }
  | _ => none

/-! ## Phenotype inference (src/backend/main.py lines 351-375) -/

structure PhenotypeCall where
  diplotype : String
  phenotype : String
deriving DecidableEq

/-- `infer_gene_phenotype(gene, rsids_for_gene)`.  `not gene` is Python
truthiness of a string: true exactly when `gene` is empty. -/
def infer_gene_phenotype (gene : String) (rsids_for_gene : List String) : PhenotypeCall :=
  if gene = "" || rsids_for_gene.isEmpty then
    { diplotype := "*1/*1", phenotype := "NM" }
  else
    let effects := effectsForGene gene
    let lof_present := rsids_for_gene.any (fun r => effects r == some Effect.LOF)
    let gof_present := rsids_for_gene.any (fun r => effects r == some Effect.GOF)
    if lof_present && gof_present then
      { diplotype := "*1/*2", phenotype := "IM" }
    else if lof_present then
      { diplotype := "*2/*2", phenotype := "PM" }
    else if gof_present then
      { diplotype := "*1/*17", phenotype := "RM" }
    else
      { diplotype := "*1/*1", phenotype := "NM" }

/-- The phenotype table exactly as claim C1 words it: baseline when the gene
is empty, unknown to `PGX_VARIANT_EFFECTS`, or the rsID list is empty;
otherwise the four-way LOF/GOF priority table. -/
def claimInferTable (gene : String) (rsids : List String) : PhenotypeCall :=
  if gene = "" ∨ (PGX_VARIANT_EFFECTS gene).isNone ∨ rsids = [] then
    { diplotype := "*1/*1", phenotype := "NM" }
  else
    let lof := rsids.any (fun r => effectsForGene gene r == some Effect.LOF)
    let gof := rsids.any (fun r => effectsForGene gene r == some Effect.GOF)
    if lof ∧ gof then { diplotype := "*1/*2", phenotype := "IM" }
    else if lof then { diplotype := "*2/*2", phenotype := "PM" }
    else if gof then { diplotype := "*1/*17", phenotype := "RM" }
    else { diplotype := "*1/*1", phenotype := "NM" }

/-! ## Variant-file parsing (src/backend/main.py lines 303-348) -/

/-- Mutable loop state of `parse_vcf_bytes`. -/
structure ParseState where
  genes : List String
  rsids : List String
  gene_rsids : List (String × List String)
  patient_id : String
deriving DecidableEq

/-- Python `set.add`: the underlying set gains the element exactly when it
was absent (the model keeps insertion order, which the code never observes). -/
def setAdd (s : List String) (x : String) : List String :=
  if x ∈ s then s else s ++ [x]

/-- Python `gene_rsids.setdefault(gene, []).append(rsid)` on an association
list: append `v` to the list stored under `k`, creating the entry if absent. -/
def appendToKey : List (String × List String) → String → String → List (String × List String)
  | [], k, v => [(k, [v])]
  | (k1, vs) :: t, k, v =>
    if k1 = k then (k1, vs ++ [v]) :: t
    else (k1, vs) :: appendToKey t k v

/-- Association-list read, `d.get(k)`. -/
def dictFind : List (String × List String) → String → Option (List String)
  | [], _ => none
  | (k1, vs) :: t, k => if k1 = k then some vs else dictFind t k

/-- One step of the tag scan over the semicolon-separated annotation parts
(lines 328-332): `GENE=` and `RS=` tags each overwrite the previous value
(last value wins, both `if`s are checked on every part). -/
def scanInfoStep (acc : Option String × Option String) (p : String) :
    Option String × Option String :=
  let acc1 := if pyStarts p "GENE=" then (some (String.mk (removeTagGENE p.data)), acc.2) else acc
  if pyStarts p "RS=" then (acc1.1, some (String.mk (removeTagRS p.data))) else acc1

/-- The full tag scan of one line's annotation field. -/
def scanInfo (info_parts : List String) : Option String × Option String :=
  info_parts.foldl scanInfoStep (none, none)

/-- Python truthiness of the scanned tag value: `None` and the empty string
are falsy. -/
def truthyOpt : Option String → Bool
  | none => false
  | some s => s != ""

/-- Processing of a single line of the decoded file (loop body, lines
312-338).  The `Except` layer models a Python exception escaping the body:
its only possible sources are the two list indexings, each guarded by a
length test. -/
def processLine (st : ParseState) (line : String) : Except String ParseState :=
  if line == "" || pyStarts line "##" then .ok st
  else if pyStarts line "#CHROM" then
    let cols := pySplitCh (pyStrip line) '\t'
    if 9 < cols.length then
      match cols.get? 9 with
      | none => .error "list index out of range"
      | some c => .ok { st with patient_id := if c == "" then "PATIENT_UNKNOWN" else c }
    else .ok st
  else
    let parts := pySplitCh (pyStrip line) '\t'
    if parts.length < 8 then .ok st
    else
      match parts.get? 7 with
      | none => .error "list index out of range"
      | some info_field =>
        -- `info_field or ""` is the identity on strings, empty or not
        let scanned := scanInfo (pySplitCh info_field ';')
        let st1 := if truthyOpt scanned.1 then
          { st with genes := setAdd st.genes (scanned.1.getD "") } else st
        let st2 := if truthyOpt scanned.2 then
          { st1 with rsids := setAdd st1.rsids (scanned.2.getD "") } else st1
        if truthyOpt scanned.1 && truthyOpt scanned.2 then
          .ok { st2 with gene_rsids := appendToKey st2.gene_rsids (scanned.1.getD "") (scanned.2.getD "") }
        else .ok st2

/-- The parser's line loop. -/
def processLines : ParseState → List String → Except String ParseState
  | st, [] => .ok st
  | st, l :: ls =>
    match processLine st l with
    | .ok st1 => processLines st1 ls
    | .error e => .error e

/-- The success dictionary returned by `parse_vcf_bytes` (lines 340-346). -/
structure VariantSummary where
  success : Bool
  patient_id : String
  genes : List String
  rsids : List String
  gene_rsids : List (String × List String)
deriving DecidableEq

/-- Return value of `parse_vcf_bytes`: the success dictionary or the
`{"success": False, "error": ...}` dictionary of the `except` clause. -/
inductive ParseReturn where
  | ok (summary : VariantSummary)
  | failed (error : String)
deriving DecidableEq

def ParseReturn.isSuccess : ParseReturn → Bool
  | .ok s => s.success
  | .failed _ => false

def initState : ParseState :=
  { genes := [], rsids := [], gene_rsids := [], patient_id := "PATIENT_UNKNOWN" }

/-- `parse_vcf_bytes(data)`. -/
def parse_vcf_bytes (data : List UInt8) : ParseReturn :=
  match processLines initState (pySplitLines (String.mk (utf8DecodeIgnore data))) with
  | .ok st =>
    .ok { success := true, patient_id := st.patient_id, genes := st.genes,
          rsids := st.rsids, gene_rsids := st.gene_rsids }
  | .error e => .failed e

/-- The parser invariant of claim C5, on the raw state components. -/
def gene_rsids_invariant (genes rsids : List String)
    (gr : List (String × List String)) : Prop :=
  ∀ g vs, (g, vs) ∈ gr → g ∈ genes ∧ ∀ r ∈ vs, r ∈ rsids

/-- Concrete one-record file used to instantiate C5's theorem. -/
def c5bytes : List UInt8 :=
  asciiBytes "X\t1\t.\tA\tG\t.\t.\tGENE=CYP2D6;RS=rs3892097"

/-- The summary `parse_vcf_bytes` returns on `c5bytes`. -/
def c5summary : VariantSummary :=
  { success := true, patient_id := "PATIENT_UNKNOWN", genes := ["CYP2D6"],
    rsids := ["rs3892097"], gene_rsids := [("CYP2D6", ["rs3892097"])] }

/-- Concrete data line used to instantiate C3's theorem. -/
def c3line : String := "1\t2\t3\t4\t5\t6\t7\tGENE=TPMT;RS=rs1800460"

/-- The state `processLine` produces from `initState` on `c3line`. -/
def c3state : ParseState :=
  { genes := ["TPMT"], rsids := ["rs1800460"],
    gene_rsids := [("TPMT", ["rs1800460"])], patient_id := "PATIENT_UNKNOWN" }

/-! ## LLM explanation (src/backend/main.py lines 378-481)

The Groq backend is an external service.  Its observable inputs to the
function's result are captured by `LlmEnv`: whether the `groq` package
imported, the two environment variables, and the outcome of the
chat-completion call (`Except.error` models any raised exception —
network failure, timeout expiry, bad response — caught by the bare
`except Exception`).  The prompt strings built by the code only feed the
external call and cannot influence the returned record, so they are not
reproduced here. -/

def GROQ_API_KEY_HARDCODED : String := "YOUR_GROQ_API_KEY_HERE"

structure LlmEnv where
  groq_available : Bool
  groq_api_key_env : Option String
  groq_model_env : Option String
  backend : Except String String

/-- The dictionary returned by `build_llm_explanation`. -/
structure LlmExplanation where
  summary : String
  mechanism : String
  cited_variants : List String
  source : String
deriving DecidableEq

/-- The fixed "not configured" placeholder (lines 399-407). -/
def notConfiguredPlaceholder (rsids_for_gene : List String) : LlmExplanation :=
  { summary := "A narrative explanation could not be generated automatically. Please interpret the structured risk assessment and clinical recommendation above in context.",
    mechanism := "No mechanistic narrative is available.",
    cited_variants := rsids_for_gene,
    source := "llm_not_configured_placeholder" }

/-- The fixed backend-error placeholder (lines 473-481); it does not
mention the caught exception. -/
def errorPlaceholder (rsids_for_gene : List String) : LlmExplanation :=
  { summary := "A narrative explanation could not be generated at this time. Use the structured risk assessment and recommendation above to guide interpretation.",
    mechanism := "Mechanistic narrative unavailable due to a transient generation issue.",
    cited_variants := rsids_for_gene,
    source := "llm_error_placeholder" }

/-- `os.getenv("GROQ_API_KEY", "").strip() or GROQ_API_KEY_HARDCODED`. -/
def resolvedGroqKey (env : LlmEnv) : String :=
  let stripped := pyStrip (env.groq_api_key_env.getD "")
  if stripped != "" then stripped else GROQ_API_KEY_HARDCODED

/-- `os.getenv("GROQ_MODEL", "llama-3.1-8b-instant")`. -/
def resolvedGroqModel (env : LlmEnv) : String :=
  env.groq_model_env.getD "llama-3.1-8b-instant"

/-- The guard of line 398: missing/placeholder key or unavailable package. -/
def llmNotConfigured (env : LlmEnv) : Bool :=
  resolvedGroqKey env == "" || resolvedGroqKey env == "YOUR_GROQ_API_KEY_HERE"
    || !env.groq_available

/-- `build_llm_explanation(...)`.  The unused clinical arguments appear in
the prompt only; they are kept so the contract quantifies over every
input, as the source signature does. -/
def build_llm_explanation (env : LlmEnv) (drug gene diplotype phenotype : String)
    (rsids_for_gene : List String) (recommendation risk_label : String) :
    LlmExplanation :=
  if llmNotConfigured env then notConfiguredPlaceholder rsids_for_gene
  else
    match env.backend with
    | .error _ => errorPlaceholder rsids_for_gene
    | .ok llm_text =>
      -- `if not llm_text: raise ValueError(...)` is caught by the same
      -- `except Exception` and lands on the error placeholder
      if llm_text == "" then errorPlaceholder rsids_for_gene
      else
        let sentences := pySplitDotSpace llm_text
        let summary :=
          if 3 ≤ sentences.length then joinDotSpace (sentences.take 2) ++ "."
          else llm_text
        let mechanism :=
          if 3 ≤ sentences.length then joinDotSpace (sentences.drop 2)
          else llm_text
        { summary := pyStrip summary,
          mechanism := pyStrip mechanism,
          cited_variants := rsids_for_gene,
          source := "groq_" ++ resolvedGroqModel env }

/-! ## Assessment assembly (src/backend/main.py lines 484-567) -/

/-- `drug.strip().upper()`. -/
def upperDrugOf (drug : String) : String :=
  pyUpper (pyStrip drug)

/-- `DRUG_PRIMARY_GENE.get(upper_drug, genes[0] if genes else "Unknown")`. -/
def primaryGeneOf (drug : String) (vcf_summary : VariantSummary) : String :=
  (DRUG_PRIMARY_GENE (upperDrugOf drug)).getD
    (match vcf_summary.genes with
      | [] => "Unknown"
      | g :: _ => g)

/-- `gene_rsids.get(primary_gene, [])`. -/
def geneSpecificRsidsOf (drug : String) (vcf_summary : VariantSummary) : List String :=
  (dictFind vcf_summary.gene_rsids (primaryGeneOf drug vcf_summary)).getD []

/-- The phenotype the assessment feeds into the rule lookup. -/
def phenotypeOf (drug : String) (vcf_summary : VariantSummary) : String :=
  (infer_gene_phenotype (primaryGeneOf drug vcf_summary)
    (geneSpecificRsidsOf drug vcf_summary)).phenotype

/-- The `risk_assessment` sub-dictionary. -/
structure RiskAssessment where
  risk_label : String
  confidence_score : ℚ
  severity : String

/-- The per-drug response dictionary (lines 537-566), flattened: the
`pharmacogenomic_profile`, `clinical_recommendation` and `quality_metrics`
sub-dictionaries are inlined as fields.  `detected_variants` is the list of
one-key `{"rsid": r}` wrappers, modelled by the rsIDs themselves. -/
structure DrugAssessment where
  patient_id : String
  drug : String
  timestamp : String
  risk_assessment : RiskAssessment
  primary_gene : String
  diplotype : String
  phenotype : String
  detected_variants : List String
  clinical_recommendation_summary : String
  llm_generated_explanation : LlmExplanation
  vcf_parsing_success : Bool
  variant_count : Nat
  gene_count : Nat
  cpic_dosing_recommendations : Option Dosing

/-- `build_drug_assessment(drug, vcf_summary)`.  `now` stands for the
`datetime.utcnow().isoformat() + "Z"` timestamp; `env` carries the
explanation-backend state threaded into `build_llm_explanation`. -/
def build_drug_assessment (env : LlmEnv) (now : String) (drug : String)
    (vcf_summary : VariantSummary) : DrugAssessment :=
  let upper_drug := upperDrugOf drug
  let rsids := vcf_summary.rsids
  let genes := vcf_summary.genes
  let primary_gene := primaryGeneOf drug vcf_summary
  let gene_specific_rsids := geneSpecificRsidsOf drug vcf_summary
  let inferred := infer_gene_phenotype primary_gene gene_specific_rsids
  let diplotype := inferred.diplotype
  let phenotype := inferred.phenotype
  -- defaults "Safe"/"none"/0.6, overwritten by the branch of lines 504-513
  let rsc : String × String × ℚ :=
    if upper_drug ∉ SUPPORTED_DRUGS ∨ primary_gene = "Unknown" then
      ("Unknown", "low", 3/10)
    else
      match PGX_RULES (upper_drug, primary_gene, phenotype) with
      | some rule => (rule.risk_label, rule.severity, 9/10)
      | none => ("Safe", "none", 6/10)
  -- second lookup of line 515, feeding recommendation and dosing
  let rule := PGX_RULES (upper_drug, primary_gene, phenotype)
  let recommendation_text :=
    match rule with
    | some r => r.recommendation
    | none => "Use standard dosing with routine clinical monitoring."
  -- `if rule and "dosing" in rule` — key presence is `Option.isSome` here
  let dosing_recommendations : Option Dosing :=
    match rule with
    | some r => r.dosing
    | none => none
  let llm_expl := build_llm_explanation env upper_drug primary_gene diplotype
    phenotype gene_specific_rsids recommendation_text rsc.1
  { patient_id := vcf_summary.patient_id,
    drug := upper_drug,
    timestamp := now,
    risk_assessment :=
      { risk_label := rsc.1, confidence_score := rsc.2.2, severity := rsc.2.1 },
    primary_gene := primary_gene,
    diplotype := diplotype,
    phenotype := phenotype,
    detected_variants := rsids,
    clinical_recommendation_summary := recommendation_text,
    llm_generated_explanation := llm_expl,
    vcf_parsing_success := vcf_summary.success,
    variant_count := rsids.length,
    gene_count := genes.length,
    cpic_dosing_recommendations := dosing_recommendations }

end PharmaGuide

namespace PharmaGuide

/-- Helper: a gene outside the knowledge base yields no LOF/GOF hit. -/
theorem effectsForGene_unknown {gene : String} (h : PGX_VARIANT_EFFECTS gene = none)
    (r : String) : effectsForGene gene r = none := by
  simp [effectsForGene, h]

/-- C1: `infer_gene_phenotype` agrees with the claimed four-way priority
table on every gene string and rsID list, with the baseline `{*1/*1, NM}`
exactly when the gene is empty or unknown or the list is empty. -/
theorem c1_infer_matches_claim_table (gene : String) (rsids : List String) :
    infer_gene_phenotype gene rsids = claimInferTable gene rsids := by
  unfold infer_gene_phenotype claimInferTable
  by_cases hg : gene = ""
  · simp [hg]
  · by_cases hr : rsids = []
    · simp [hg, hr, List.isEmpty_iff]
    · match heff : PGX_VARIANT_EFFECTS gene with
      | none =>
        have hall : ∀ r, effectsForGene gene r = none := effectsForGene_unknown heff
        simp [hg, hr, List.isEmpty_iff, hall, heff]
      | some d =>
        simp [hg, hr, List.isEmpty_iff, heff]

/-! ### Parser lemmas -/

theorem getq_some {α : Type} {l : List α} {i : Nat} (h : i < l.length) :
    ∃ c, l.get? i = some c :=
  ⟨l.get ⟨i, h⟩, List.get?_eq_get h⟩

/-- The per-line handler never raises: both list indexings are guarded. -/
theorem processLine_ok (st : ParseState) (line : String) :
    ∃ st1, processLine st line = Except.ok st1 := by
  simp only [processLine]
  split_ifs with h1 h2 h3 h4
  · exact ⟨_, rfl⟩
  · obtain ⟨c, hc⟩ := getq_some h3
    rw [hc]
    exact ⟨_, rfl⟩
  · exact ⟨_, rfl⟩
  · exact ⟨_, rfl⟩
  · obtain ⟨c, hc⟩ := getq_some
      (show 7 < (pySplitCh (pyStrip line) '\t').length by omega)
    rw [hc]
    dsimp only
    split_ifs <;> exact ⟨_, rfl⟩

theorem processLines_ok (st : ParseState) (lines : List String) :
    ∃ st1, processLines st lines = Except.ok st1 := by
  induction lines generalizing st with
  | nil => exact ⟨st, rfl⟩
  | cons l ls ih =>
    obtain ⟨stl, hl⟩ := processLine_ok st l
    obtain ⟨st1, h1⟩ := ih stl
    exact ⟨st1, by simp [processLines, hl, h1]⟩

theorem setAdd_mem_self (s : List String) (x : String) : x ∈ setAdd s x := by
  unfold setAdd
  split
  · assumption
  · simp

theorem setAdd_mem_mono {s : List String} {y : String} (h : y ∈ s) (x : String) :
    y ∈ setAdd s x := by
  unfold setAdd
  split
  · exact h
  · simp [h]

theorem dictFind_appendToKey (d : List (String × List String)) (k v : String) :
    dictFind (appendToKey d k v) k = some ((dictFind d k).getD [] ++ [v]) := by
  induction d with
  | nil => simp [appendToKey, dictFind]
  | cons hd t ih =>
    obtain ⟨k1, vs⟩ := hd
    by_cases hk : k1 = k
    · simp [appendToKey, dictFind, hk]
    · simp [appendToKey, dictFind, hk, ih]

theorem appendToKey_cases {d : List (String × List String)} {k v g : String}
    {vs : List String} (h : (g, vs) ∈ appendToKey d k v) :
    (g, vs) ∈ d ∨ (g = k ∧ (vs = [v] ∨ ∃ old, (k, old) ∈ d ∧ vs = old ++ [v])) := by
  induction d with
  | nil =>
    simp only [appendToKey, List.mem_singleton, Prod.mk.injEq] at h
    exact Or.inr ⟨h.1, Or.inl h.2⟩
  | cons hd t ih =>
    obtain ⟨k1, vs1⟩ := hd
    by_cases hk : k1 = k
    · subst hk
      simp only [appendToKey, if_pos rfl] at h
      rcases List.mem_cons.1 h with heq | hmem
      · rw [Prod.ext_iff] at heq
        exact Or.inr ⟨heq.1, Or.inr ⟨vs1, List.mem_cons.2 (Or.inl rfl), heq.2⟩⟩
      · exact Or.inl (List.mem_cons.2 (Or.inr hmem))
    · simp only [appendToKey, if_neg hk] at h
      rcases List.mem_cons.1 h with heq | hmem
      · exact Or.inl (List.mem_cons.2 (Or.inl heq))
      · rcases ih hmem with h1 | ⟨hg, h2⟩
        · exact Or.inl (List.mem_cons.2 (Or.inr h1))
        · refine Or.inr ⟨hg, ?_⟩
          rcases h2 with h2 | ⟨old, hold, hv⟩
          · exact Or.inl h2
          · exact Or.inr ⟨old, List.mem_cons.2 (Or.inr hold), hv⟩

/-- C4: `parse_vcf_bytes` succeeds on every byte sequence, valid UTF-8 or
not: the decode is best-effort and the per-line handling is total, so the
`{success: false, error}` branch is unreachable. -/
theorem c4_parse_vcf_bytes_total (data : List UInt8) :
    (parse_vcf_bytes data).isSuccess = true := by
  unfold parse_vcf_bytes
  obtain ⟨st, hst⟩ :=
    processLines_ok initState (pySplitLines (String.mk (utf8DecodeIgnore data)))
  rw [hst]
  rfl

theorem gene_rsids_invariant_mono {genes rsids genes1 rsids1 : List String}
    {gr : List (String × List String)}
    (h : gene_rsids_invariant genes rsids gr)
    (hg : ∀ x ∈ genes, x ∈ genes1) (hr : ∀ x ∈ rsids, x ∈ rsids1) :
    gene_rsids_invariant genes1 rsids1 gr :=
  fun g vs hm => ⟨hg g (h g vs hm).1, fun r hrm => hr r ((h g vs hm).2 r hrm)⟩

/-- One parser step preserves the invariant. -/
theorem processLine_invariant {st st1 : ParseState} {line : String}
    (hok : processLine st line = Except.ok st1)
    (hinv : gene_rsids_invariant st.genes st.rsids st.gene_rsids) :
    gene_rsids_invariant st1.genes st1.rsids st1.gene_rsids := by
  simp only [processLine] at hok
  split_ifs at hok with h1 h2 h3 h4
  · cases hok
    exact hinv
  · rcases hget : (pySplitCh (pyStrip line) '\t').get? 9 with _ | c <;> rw [hget] at hok
    · cases hok
    · cases hok
      exact hinv
  · cases hok
    exact hinv
  · cases hok
    exact hinv
  · rcases hget : (pySplitCh (pyStrip line) '\t').get? 7 with _ | c <;> rw [hget] at hok
    · cases hok
    · dsimp only at hok
      rcases hg : truthyOpt (scanInfo (pySplitCh c ';')).1 <;>
        rcases hr : truthyOpt (scanInfo (pySplitCh c ';')).2 <;>
          simp only [hg, hr, Bool.false_and, Bool.true_and, if_pos, if_neg,
            Bool.false_eq_true, if_false, if_true, Bool.and_self] at hok <;>
            cases hok
      · exact hinv
      · exact gene_rsids_invariant_mono hinv (fun x hx => hx)
          (fun x hx => setAdd_mem_mono hx _)
      · exact gene_rsids_invariant_mono hinv
          (fun x hx => setAdd_mem_mono hx _) (fun x hx => hx)
      · intro g vs hm
        rcases appendToKey_cases hm with hold | ⟨hgk, hvs⟩
        · have hb := hinv g vs hold
          exact ⟨setAdd_mem_mono hb.1 _, fun r hrm => setAdd_mem_mono (hb.2 r hrm) _⟩
        · subst hgk
          refine ⟨setAdd_mem_self _ _, ?_⟩
          rcases hvs with rfl | ⟨old, holdm, rfl⟩
          · intro r hrm
            rcases List.mem_singleton.1 hrm with rfl
            exact setAdd_mem_self _ _
          · intro r hrm
            rcases List.mem_append.1 hrm with hrm | hrm
            · exact setAdd_mem_mono ((hinv _ old holdm).2 r hrm) _
            · rcases List.mem_singleton.1 hrm with rfl
              exact setAdd_mem_self _ _

theorem processLines_invariant {st st1 : ParseState} {lines : List String}
    (hok : processLines st lines = Except.ok st1)
    (hinv : gene_rsids_invariant st.genes st.rsids st.gene_rsids) :
    gene_rsids_invariant st1.genes st1.rsids st1.gene_rsids := by
  induction lines generalizing st with
  | nil =>
    simp only [processLines] at hok
    cases hok
    exact hinv
  | cons l ls ih =>
    simp only [processLines] at hok
    rcases hl : processLine st l with e | stl <;> rw [hl] at hok
    · cases hok
    · exact ih hok (processLine_invariant hl hinv)

/-- C5: on every byte input on which `parse_vcf_bytes` succeeds, each key of
`gene_rsids` is in the `genes` set and each rsID in a `gene_rsids` value
list is in the `rsids` set. -/
theorem c5_variant_summary_invariant (data : List UInt8) (s : VariantSummary)
    (h : parse_vcf_bytes data = ParseReturn.ok s) :
    ∀ g vs, (g, vs) ∈ s.gene_rsids → g ∈ s.genes ∧ ∀ r ∈ vs, r ∈ s.rsids := by
  unfold parse_vcf_bytes at h
  rcases hrun : processLines initState
      (pySplitLines (String.mk (utf8DecodeIgnore data))) with e | st <;>
    rw [hrun] at h
  · cases h
  · cases h
    have hinit : gene_rsids_invariant initState.genes initState.rsids
        initState.gene_rsids := by
      intro g vs hm
      simp [initState] at hm
    exact processLines_invariant hrun hinit

theorem c5_variant_summary_invariant_witness :
    "CYP2D6" ∈ c5summary.genes ∧ "rs3892097" ∈ c5summary.rsids :=
  have h := c5_variant_summary_invariant c5bytes c5summary (by decide)
    "CYP2D6" ["rs3892097"] (by decide)
  ⟨h.1, h.2 "rs3892097" (by decide)⟩

/-- C3: behaviour of one data line with at least 8 tab-separated columns.
`g` and `r` are the tag values the scan of the annotation field produces;
a tag counts as present exactly when its scanned value is truthy (`GENE=`
with an empty value adds nothing, matching the code).  The conjuncts state:
a `gene_rsids` change requires both tags; a single tag touches only its own
set; a line with both tags appends the rsID to `gene_rsids[gene]` exactly
once while the rsID is also in the global `rsids` set. -/
theorem c3_line_processing (st st2 : ParseState) (line : String)
    (parts : List String) (info_field : String) (g r : Option String)
    (h1 : (line == "") = false) (h2 : pyStarts line "##" = false)
    (h3 : pyStarts line "#CHROM" = false)
    (hparts : pySplitCh (pyStrip line) '\t' = parts)
    (hlen : 8 ≤ parts.length)
    (hinfo : parts.get? 7 = some info_field)
    (hscan : scanInfo (pySplitCh info_field ';') = (g, r))
    (hok : processLine st line = Except.ok st2) :
    (st2.gene_rsids ≠ st.gene_rsids → truthyOpt g = true ∧ truthyOpt r = true)
    ∧ (truthyOpt g = true → truthyOpt r = false →
        st2.genes = setAdd st.genes (g.getD "") ∧ st2.rsids = st.rsids
          ∧ st2.gene_rsids = st.gene_rsids)
    ∧ (truthyOpt g = false → truthyOpt r = true →
        st2.rsids = setAdd st.rsids (r.getD "") ∧ st2.genes = st.genes
          ∧ st2.gene_rsids = st.gene_rsids)
    ∧ (truthyOpt g = true → truthyOpt r = true →
        dictFind st2.gene_rsids (g.getD "")
            = some ((dictFind st.gene_rsids (g.getD "")).getD [] ++ [r.getD ""])
          ∧ (r.getD "") ∈ st2.rsids ∧ (g.getD "") ∈ st2.genes) := by
  simp only [processLine, h1, h2, h3, Bool.false_or, Bool.false_eq_true,
    if_false] at hok
  rw [hparts, if_neg (by omega : ¬parts.length < 8), hinfo] at hok
  dsimp only at hok
  rw [hscan] at hok
  dsimp only at hok
  rcases hg : truthyOpt g <;> rcases hr : truthyOpt r <;>
    rw [hg, hr] at hok <;>
      simp only [Bool.false_and, Bool.true_and, Bool.and_self,
        Bool.false_eq_true, if_false, if_true] at hok <;> cases hok
  · exact ⟨fun hne => absurd rfl hne,
      fun hgt _ => absurd hgt (by simp [hg]),
      fun _ hrt => absurd hrt (by simp [hr]),
      fun hgt _ => absurd hgt (by simp [hg])⟩
  · exact ⟨fun hne => absurd rfl hne,
      fun hgt _ => absurd hgt (by simp [hg]),
      fun _ _ => ⟨rfl, rfl, rfl⟩,
      fun hgt _ => absurd hgt (by simp [hg])⟩
  · exact ⟨fun hne => absurd rfl hne,
      fun _ _ => ⟨rfl, rfl, rfl⟩,
      fun hgf _ => absurd hgf (by simp [hg]),
      fun _ hrt => absurd hrt (by simp [hr])⟩
  · exact ⟨fun _ => ⟨rfl, rfl⟩,
      fun _ hrf => absurd hrf (by simp [hr]),
      fun hgf _ => absurd hgf (by simp [hg]),
      fun _ _ => ⟨dictFind_appendToKey _ _ _, setAdd_mem_self _ _,
        setAdd_mem_self _ _⟩⟩

theorem c3_line_processing_witness :
    dictFind c3state.gene_rsids "TPMT" = some ["rs1800460"]
    ∧ "rs1800460" ∈ c3state.rsids ∧ "TPMT" ∈ c3state.genes :=
  have h := c3_line_processing initState c3state c3line
    (pySplitCh (pyStrip c3line) '\t') "GENE=TPMT;RS=rs1800460"
    (some "TPMT") (some "rs1800460")
    (by decide) (by decide) (by decide) rfl (by decide) (by decide) (by decide)
    rfl
  h.2.2.2 (by decide) (by decide)

/-! ### Explanation-generator lemmas -/

/-- In every branch the explanation echoes the input rsID list. -/
theorem build_llm_cited (env : LlmEnv) (drug gene diplotype phenotype : String)
    (rsids : List String) (recommendation risk_label : String) :
    (build_llm_explanation env drug gene diplotype phenotype rsids
      recommendation risk_label).cited_variants = rsids := by
  unfold build_llm_explanation
  split_ifs with h
  · rfl
  · rcases hb : env.backend with e | t
    · rfl
    · dsimp only
      split_ifs <;> rfl

/-- C6: `build_llm_explanation` is total and well-formed on every input:
when no backend is configured it returns exactly the fixed not-configured
placeholder (mechanism "No mechanistic narrative is available.", sentinel
source "llm_not_configured_placeholder"); on any backend exception or an
empty response it returns exactly the fixed error placeholder (sentinel
source "llm_error_placeholder"), a constant record that cannot contain the
underlying error text; and `cited_variants` always echoes the input. -/
theorem c6_explanation_never_fails (env : LlmEnv)
    (drug gene diplotype phenotype : String) (rsids : List String)
    (recommendation risk_label : String) :
    (build_llm_explanation env drug gene diplotype phenotype rsids
        recommendation risk_label).cited_variants = rsids
    ∧ (llmNotConfigured env = true →
        build_llm_explanation env drug gene diplotype phenotype rsids
            recommendation risk_label = notConfiguredPlaceholder rsids)
    ∧ (∀ err, llmNotConfigured env = false → env.backend = Except.error err →
        build_llm_explanation env drug gene diplotype phenotype rsids
            recommendation risk_label = errorPlaceholder rsids)
    ∧ (llmNotConfigured env = false → env.backend = Except.ok "" →
        build_llm_explanation env drug gene diplotype phenotype rsids
            recommendation risk_label = errorPlaceholder rsids)
    ∧ (notConfiguredPlaceholder rsids).mechanism
        = "No mechanistic narrative is available."
    ∧ (notConfiguredPlaceholder rsids).source = "llm_not_configured_placeholder"
    ∧ (errorPlaceholder rsids).source = "llm_error_placeholder" := by
  refine ⟨build_llm_cited env drug gene diplotype phenotype rsids
    recommendation risk_label, ?_, ?_, ?_, rfl, rfl, rfl⟩
  · intro h
    unfold build_llm_explanation
    rw [if_pos h]
  · intro err h hbe
    unfold build_llm_explanation
    rw [if_neg (by simp [h]), hbe]
  · intro h hbe
    unfold build_llm_explanation
    rw [if_neg (by simp [h]), hbe]
    rfl

/-- Environment with the Groq package unavailable: the not-configured path. -/
def c6envOff : LlmEnv :=
  { groq_available := false, groq_api_key_env := none, groq_model_env := none,
    backend := Except.error "unreachable" }

/-- Configured environment whose backend call raises. -/
def c6envErr : LlmEnv :=
  { groq_available := true, groq_api_key_env := some "testkey",
    groq_model_env := none, backend := Except.error "connection timed out" }

theorem c6_explanation_never_fails_witness :
    build_llm_explanation c6envOff "CODEINE" "CYP2D6" "*1/*1" "NM" ["rs3892097"]
        "rec" "Safe" = notConfiguredPlaceholder ["rs3892097"]
    ∧ build_llm_explanation c6envErr "CODEINE" "CYP2D6" "*1/*1" "NM" ["rs3892097"]
        "rec" "Safe" = errorPlaceholder ["rs3892097"] :=
  ⟨(c6_explanation_never_fails c6envOff "CODEINE" "CYP2D6" "*1/*1" "NM"
      ["rs3892097"] "rec" "Safe").2.1 (by decide),
    (c6_explanation_never_fails c6envErr "CODEINE" "CYP2D6" "*1/*1" "NM"
      ["rs3892097"] "rec" "Safe").2.2.1 "connection timed out" (by decide) rfl⟩

/-- Configured environment whose backend returns a three-sentence text with
a leading space, exercising the sentence split. -/
def c8env : LlmEnv :=
  { groq_available := true, groq_api_key_env := some "testkey",
    groq_model_env := none, backend := Except.ok " A. B. C" }

/-- C8 counterexample: on the backend text " A. B. C" (three sentences) the
returned summary is not the bare rejoin-of-first-two-sentences-plus-period
the claim describes, because the code strips surrounding whitespace before
returning it. -/
theorem c8_counterexample :
    llmNotConfigured c8env = false
    ∧ 3 ≤ (pySplitDotSpace " A. B. C").length
    ∧ (build_llm_explanation c8env "CODEINE" "CYP2D6" "*1/*1" "NM" ["rs1"]
        "rec" "Safe").summary
      ≠ joinDotSpace ((pySplitDotSpace " A. B. C").take 2) ++ "." := by
  decide

/-- C8 as amended: on a successful non-empty backend text, when splitting on
". " yields at least three sentences the summary is the first two rejoined
with a trailing period and the mechanism is the remainder, each then
whitespace-stripped; with fewer than three sentences both fields are the
stripped full text; and `cited_variants` echoes the input rsID list
verbatim in every branch (any environment). -/
theorem c8_success_split (env env2 : LlmEnv)
    (drug gene diplotype phenotype : String) (rsids : List String)
    (recommendation risk_label llm_text : String)
    (hconf : llmNotConfigured env = false)
    (hok : env.backend = Except.ok llm_text) (hne : llm_text ≠ "") :
    (3 ≤ (pySplitDotSpace llm_text).length →
      (build_llm_explanation env drug gene diplotype phenotype rsids
          recommendation risk_label).summary
          = pyStrip (joinDotSpace ((pySplitDotSpace llm_text).take 2) ++ ".")
        ∧ (build_llm_explanation env drug gene diplotype phenotype rsids
          recommendation risk_label).mechanism
          = pyStrip (joinDotSpace ((pySplitDotSpace llm_text).drop 2)))
    ∧ ((pySplitDotSpace llm_text).length < 3 →
      (build_llm_explanation env drug gene diplotype phenotype rsids
          recommendation risk_label).summary = pyStrip llm_text
        ∧ (build_llm_explanation env drug gene diplotype phenotype rsids
          recommendation risk_label).mechanism = pyStrip llm_text)
    ∧ (build_llm_explanation env drug gene diplotype phenotype rsids
        recommendation risk_label).cited_variants = rsids
    ∧ (build_llm_explanation env2 drug gene diplotype phenotype rsids
        recommendation risk_label).cited_variants = rsids := by
  refine ⟨?_, ?_,
    build_llm_cited env drug gene diplotype phenotype rsids recommendation risk_label,
    build_llm_cited env2 drug gene diplotype phenotype rsids recommendation risk_label⟩
  all_goals
    intro hlen
    unfold build_llm_explanation
    rw [if_neg (by simp [hconf]), hok]
    dsimp only
    rw [if_neg (by simp [hne])]
  · rw [if_pos hlen, if_pos hlen]
    exact ⟨rfl, rfl⟩
  · rw [if_neg (by omega), if_neg (by omega)]
    exact ⟨rfl, rfl⟩

theorem c8_success_split_witness :
    (build_llm_explanation c8env "CODEINE" "CYP2D6" "*1/*1" "NM" ["rs1"]
        "rec" "Safe").summary = "A. B."
    ∧ (build_llm_explanation c8env "CODEINE" "CYP2D6" "*1/*1" "NM" ["rs1"]
        "rec" "Safe").mechanism = "C"
    ∧ (build_llm_explanation c8env "CODEINE" "CYP2D6" "*1/*1" "NM" ["rs1"]
        "rec" "Safe").cited_variants = ["rs1"] :=
  have h := c8_success_split c8env c8env "CODEINE" "CYP2D6" "*1/*1" "NM" ["rs1"]
    "rec" "Safe" " A. B. C" (by decide) rfl (by decide)
  ⟨((h.1 (by decide)).1).trans (by decide),
    ((h.1 (by decide)).2).trans (by decide), h.2.2.1⟩

/-! ### Assessment theorems -/

/-- C2: the risk fields of `build_drug_assessment` follow exactly the
claimed confidence policy: unsupported drug or unresolved gene forces
`Unknown`/`low`/0.3; a matching rule row yields 0.9 with the row's
`risk_label`, `severity`, `recommendation` and `dosing` copied verbatim
(dosing present exactly when the row carries one); no matching row yields
0.6/`Safe`/`none` with the standard-dosing recommendation and no dosing. -/
theorem c2_risk_policy (env : LlmEnv) (now drug : String) (vcf : VariantSummary)
    (A : DrugAssessment) (hA : build_drug_assessment env now drug vcf = A) :
    (upperDrugOf drug ∉ SUPPORTED_DRUGS ∨ primaryGeneOf drug vcf = "Unknown" →
      A.risk_assessment.risk_label = "Unknown"
        ∧ A.risk_assessment.severity = "low"
        ∧ A.risk_assessment.confidence_score = 3/10)
    ∧ (upperDrugOf drug ∈ SUPPORTED_DRUGS → primaryGeneOf drug vcf ≠ "Unknown" →
        (∀ rule, PGX_RULES (upperDrugOf drug, primaryGeneOf drug vcf,
            phenotypeOf drug vcf) = some rule →
          A.risk_assessment.confidence_score = 9/10
            ∧ A.risk_assessment.risk_label = rule.risk_label
            ∧ A.risk_assessment.severity = rule.severity
            ∧ A.clinical_recommendation_summary = rule.recommendation
            ∧ A.cpic_dosing_recommendations = rule.dosing)
        ∧ (PGX_RULES (upperDrugOf drug, primaryGeneOf drug vcf,
            phenotypeOf drug vcf) = none →
          A.risk_assessment.confidence_score = 6/10
            ∧ A.risk_assessment.risk_label = "Safe"
            ∧ A.risk_assessment.severity = "none"
            ∧ A.clinical_recommendation_summary
                = "Use standard dosing with routine clinical monitoring."
            ∧ A.cpic_dosing_recommendations = none)) := by
  subst hA
  by_cases hcond : upperDrugOf drug ∉ SUPPORTED_DRUGS ∨ primaryGeneOf drug vcf = "Unknown"
  · refine ⟨fun _ => ?_, fun hsup hpg => ?_⟩
    · simp only [build_drug_assessment, if_pos hcond]
      exact ⟨trivial, trivial, trivial⟩
    · rcases hcond with h | h
      · exact absurd hsup h
      · exact absurd h hpg
  · refine ⟨fun h => absurd h hcond, fun _ _ => ⟨fun rule hrule => ?_, fun hnone => ?_⟩⟩
    · simp only [phenotypeOf] at hrule
      simp only [build_drug_assessment, if_neg hcond, hrule]
      exact ⟨trivial, trivial, trivial, trivial, trivial⟩
    · simp only [phenotypeOf] at hnone
      simp only [build_drug_assessment, if_neg hcond, hnone]
      exact ⟨trivial, trivial, trivial, trivial, trivial⟩

/-- Environment value for the C2 witness (its content is irrelevant to the
risk fields). -/
def c2env : LlmEnv :=
  { groq_available := false, groq_api_key_env := none, groq_model_env := none,
    backend := Except.error "unreachable" }

/-- Empty variant summary for the C2 witness: CLOPIDOGREL then resolves to
CYP2C19 with phenotype NM, a key with no row in `PGX_RULES`. -/
def c2vcf : VariantSummary :=
  { success := true, patient_id := "P1", genes := [], rsids := [],
    gene_rsids := [] }

theorem c2_risk_policy_witness :
    (build_drug_assessment c2env "ts" "CLOPIDOGREL" c2vcf).risk_assessment.confidence_score = 6/10
    ∧ (build_drug_assessment c2env "ts" "CLOPIDOGREL" c2vcf).risk_assessment.risk_label = "Safe"
    ∧ (build_drug_assessment c2env "ts" "CLOPIDOGREL" c2vcf).risk_assessment.severity = "none"
    ∧ (build_drug_assessment c2env "ts" "CLOPIDOGREL" c2vcf).cpic_dosing_recommendations = none :=
  have h := (c2_risk_policy c2env "ts" "CLOPIDOGREL" c2vcf _ rfl).2
    (by decide) (by decide)
  have h2 := h.2 (by decide)
  ⟨h2.1, h2.2.1, h2.2.2.1, h2.2.2.2.2⟩

/-- C10: the inferred phenotype is always one of NM/IM/PM/RM and never
"UM"; therefore, although `PGX_RULES` carries a row keyed
`(CODEINE, CYP2D6, UM)`, the key `build_drug_assessment` looks up never
equals it, and the assessment's phenotype field is never "UM". -/
theorem c10_um_row_unreachable (gene : String) (l : List String)
    (env : LlmEnv) (now drug : String) (vcf : VariantSummary) :
    ((infer_gene_phenotype gene l).phenotype = "NM"
      ∨ (infer_gene_phenotype gene l).phenotype = "IM"
      ∨ (infer_gene_phenotype gene l).phenotype = "PM"
      ∨ (infer_gene_phenotype gene l).phenotype = "RM")
    ∧ (infer_gene_phenotype gene l).phenotype ≠ "UM"
    ∧ (PGX_RULES ("CODEINE", "CYP2D6", "UM")).isSome = true
    ∧ (upperDrugOf drug, primaryGeneOf drug vcf, phenotypeOf drug vcf)
        ≠ ("CODEINE", "CYP2D6", "UM")
    ∧ (build_drug_assessment env now drug vcf).phenotype ≠ "UM" := by
  have h4 : ∀ (g : String) (m : List String),
      (infer_gene_phenotype g m).phenotype = "NM"
        ∨ (infer_gene_phenotype g m).phenotype = "IM"
        ∨ (infer_gene_phenotype g m).phenotype = "PM"
        ∨ (infer_gene_phenotype g m).phenotype = "RM" := by
    intro g m
    unfold infer_gene_phenotype
    dsimp only
    split
    · left; rfl
    · split
      · right; left; rfl
      · split
        · right; right; left; rfl
        · split
          · right; right; right; rfl
          · left; rfl
  have h5 : ∀ (g : String) (m : List String),
      (infer_gene_phenotype g m).phenotype ≠ "UM" := by
    intro g m
    rcases h4 g m with h | h | h | h <;> rw [h] <;> decide
  refine ⟨h4 gene l, h5 gene l, rfl, fun h => ?_, ?_⟩
  · have hph := congrArg (fun t : String × String × String => t.2.2) h
    simp only [phenotypeOf] at hph
    exact h5 _ _ hph
  · show (build_drug_assessment env now drug vcf).phenotype ≠ "UM"
    simp only [build_drug_assessment]
    exact h5 _ _

/-- Kernel of claim C9: whenever the list holds at least one LOF hit and at
least one GOF hit for the gene, the inference returns `{*1/*2, IM}`. -/
theorem infer_IM_of_lof_gof (gene : String) (m : List String)
    (hl : ∃ r ∈ m, effectsForGene gene r = some Effect.LOF)
    (hg : ∃ r ∈ m, effectsForGene gene r = some Effect.GOF) :
    infer_gene_phenotype gene m = { diplotype := "*1/*2", phenotype := "IM" } := by
  obtain ⟨r1, hr1m, hr1⟩ := hl
  obtain ⟨r2, hr2m, hr2⟩ := hg
  have hgene : ¬gene = "" := by
    intro heq
    rw [heq] at hr1
    have : effectsForGene "" r1 = none := rfl
    rw [this] at hr1
    cases hr1
  have hm : m ≠ [] := List.ne_nil_of_mem hr1m
  have hlofb : (m.any fun r => effectsForGene gene r == some Effect.LOF) = true :=
    List.any_eq_true.2 ⟨r1, hr1m, by rw [hr1]; rfl⟩
  have hgofb : (m.any fun r => effectsForGene gene r == some Effect.GOF) = true :=
    List.any_eq_true.2 ⟨r2, hr2m, by rw [hr2]; rfl⟩
  unfold infer_gene_phenotype
  rw [if_neg (by simp [hgene, List.isEmpty_iff, hm])]
  dsimp only
  rw [hlofb, hgofb]
  rfl

/-- C9: with at least one LOF rsID and at least one GOF rsID of the gene
present, `infer_gene_phenotype` returns `{*1/*2, IM}`, and the result is
invariant under permuting the list and under appending rsIDs that are
neutral for the gene (absent from `PGX_VARIANT_EFFECTS[gene]`). -/
theorem c9_im_priority_stable (gene : String) (l : List String)
    (hl : ∃ r ∈ l, effectsForGene gene r = some Effect.LOF)
    (hg : ∃ r ∈ l, effectsForGene gene r = some Effect.GOF) :
    infer_gene_phenotype gene l = { diplotype := "*1/*2", phenotype := "IM" }
    ∧ (∀ l2, l.Perm l2 →
        infer_gene_phenotype gene l2 = infer_gene_phenotype gene l)
    ∧ (∀ extra, (∀ x ∈ extra, effectsForGene gene x = none) →
        infer_gene_phenotype gene (l ++ extra) = infer_gene_phenotype gene l) := by
  have hbase := infer_IM_of_lof_gof gene l hl hg
  refine ⟨hbase, ?_, ?_⟩
  · intro l2 hperm
    obtain ⟨r1, hr1m, hr1⟩ := hl
    obtain ⟨r2, hr2m, hr2⟩ := hg
    rw [hbase, infer_IM_of_lof_gof gene l2
      ⟨r1, hperm.subset hr1m, hr1⟩ ⟨r2, hperm.subset hr2m, hr2⟩]
  · intro extra hx
    obtain ⟨r1, hr1m, hr1⟩ := hl
    obtain ⟨r2, hr2m, hr2⟩ := hg
    rw [hbase, infer_IM_of_lof_gof gene (l ++ extra)
      ⟨r1, List.mem_append_left extra hr1m, hr1⟩
      ⟨r2, List.mem_append_left extra hr2m, hr2⟩]

theorem c9_im_priority_stable_witness :
    infer_gene_phenotype "CYP2C19" ["rs4244285", "rs12248560"]
      = { diplotype := "*1/*2", phenotype := "IM" }
    ∧ infer_gene_phenotype "CYP2C19" ["rs12248560", "rs4244285"]
      = infer_gene_phenotype "CYP2C19" ["rs4244285", "rs12248560"]
    ∧ infer_gene_phenotype "CYP2C19" ["rs4244285", "rs12248560", "rs9999"]
      = infer_gene_phenotype "CYP2C19" ["rs4244285", "rs12248560"] :=
  have h := c9_im_priority_stable "CYP2C19" ["rs4244285", "rs12248560"]
    (by decide) (by decide)
  ⟨h.1, h.2.1 ["rs12248560", "rs4244285"] (by decide),
    h.2.2 ["rs9999"] (by decide)⟩

end PharmaGuide
